import Mathlib

/-!
Shallow embedding of the auto_description_retrieval repository.

The embedding translates the Python sources:
  src/client/scrape_html.py
  src/core/helper_functions/fetch_vdp_html.py
  src/core/main_functions/determine_vpd_search_paths.py
  src/core/helper_functions/isolate_vehicle_description.py
  src/core/main_functions/scrape_description.py
into executable Lean definitions, together with a model of the library
behavior those sources rely on: BeautifulSoup element matching
(per-token class matching with the space-joined fallback, kwarg renaming
of class underscore to class, pre-order first-descendant search,
text extraction with a separator and stripping) and the httpx status
dispatch used by scrape_html.

Strings are handled at the level of character lists; helper functions
mirror the Python primitives used by the sources: str.join, substring
membership, str.strip, str.lower, regex search for the fixed patterns
appearing in the code.
-/

namespace AutoDesc

/-- Python str.join: joins the parts with the separator between them. -/
def pyJoin (sep : String) : List String → String
  | [] => ""
  | [p] => p
  | p :: rest => p ++ sep ++ pyJoin sep rest

/-- Whether the character list hay begins with the character list needle. -/
def beginsWith : List Char → List Char → Bool
  | [], _ => true
  | _ :: _, [] => false
  | a :: as, b :: bs => a == b && beginsWith as bs

/-- Python substring membership needle in hay, on character lists. -/
def pyInAux (needle : List Char) : List Char → Bool
  | [] => beginsWith needle []
  | c :: rest => beginsWith needle (c :: rest) || pyInAux needle rest

/-- Python substring membership needle in hay, on strings. -/
def pyInStr (needle hay : String) : Bool :=
  pyInAux needle.data hay.data

/-- The whitespace characters recognized by the Python regex class
backslash-s and by str.strip, restricted to ASCII. -/
def pyIsSpace (c : Char) : Bool :=
  c == ' ' || c == '\t' || c == '\n' || c == '\x0d' || c == '\x0b' || c == '\x0c'

/-- Drop leading Python whitespace from a character list. -/
def dropSpaceLeft : List Char → List Char
  | [] => []
  | c :: rest => if pyIsSpace c then dropSpaceLeft rest else c :: rest

/-- Python str.strip with no arguments, on character lists. -/
def pyStripList (l : List Char) : List Char :=
  (dropSpaceLeft ((dropSpaceLeft l.reverse).reverse))

/-- Python str.strip with no arguments, on strings. -/
def pyStrip (s : String) : String :=
  String.mk (pyStripList s.data)

/-- Python str.lower, on strings (ASCII model). -/
def pyLower (s : String) : String :=
  String.mk (s.data.map Char.toLower)

/-- Attribute value of a parsed element, as stored by BeautifulSoup with
the html.parser builder: most attributes hold a single string; the class
attribute is multi-valued and stored as its list of whitespace-split
tokens. -/
inductive AttrVal where
  | one (s : String)
  | toks (ts : List String)
  deriving Repr

/-- A node of the parsed document tree (BeautifulSoup Tag or
NavigableString): an element has a tag name, an attribute mapping in
source order, and ordered children; a text node holds its string. -/
inductive Node where
  | elem (tag : String) (attrs : List (String × AttrVal)) (children : List Node)
  | text (s : String)
  deriving Repr

/-- First value bound to a key in an association list (Python dict get). -/
def alistGet {α : Type} (k : String) : List (String × α) → Option α
  | [] => none
  | (k', v) :: rest => if k' == k then some v else alistGet k rest

/-- BeautifulSoup match of one expected attribute string against the
stored value of that attribute on an element (SoupStrainer matching):
a missing attribute matches only the empty expected string; a
single-valued attribute must equal the expected string exactly; a
multi-valued attribute (class) matches when some stored token equals the
expected string or when the space-joined stored tokens equal it. -/
def bsMatchStr (stored : Option AttrVal) (expected : String) : Bool :=
  match stored with
  | none => expected == ""
  | some (.one s) => s == expected
  | some (.toks ts) => ts.contains expected || pyJoin " " ts == expected

/-- An expected attribute value handed to BeautifulSoup find or
find_all: either a plain string or a list of strings (any of which may
match, as SoupStrainer does for iterable expected values). -/
inductive SpecVal where
  | s (v : String)
  | l (vs : List String)
  deriving Repr

/-- BeautifulSoup match of an expected attribute value (string or list)
against the stored value of that attribute on an element. -/
def bsMatchVal (stored : Option AttrVal) : SpecVal → Bool
  | .s v => bsMatchStr stored v
  | .l vs => vs.any (fun v => bsMatchStr stored v)

/-- A tag-plus-attributes query as BeautifulSoup receives it from find
or find_all: the tag name and the expected attribute values keyed by
attribute name. -/
structure BsSpec where
  tag : String
  attrs : List (String × SpecVal)
  deriving Repr

/-- Whether an element node satisfies a query: the tag name must equal
the query tag and every attribute entry of the query must match under
BeautifulSoup matching. Text nodes never match. -/
def matchesSpec : Node → BsSpec → Bool
  | .elem t as _, q =>
      t == q.tag && q.attrs.all (fun kv => bsMatchVal (alistGet kv.1 as) kv.2)
  | .text _, _ => false

/-- One step of a search chain, as the Python dicts in fetch_vdp_html:
the value of the key tag, plus the remaining key-value entries in dict
order (attribute names, possibly spelled with the trailing underscore
that BeautifulSoup renames, mapped to expected strings). -/
structure TagDict where
  tag : String
  attrs : List (String × String)
  deriving Repr

/-- The kwarg renaming done by BeautifulSoup: the keyword written with a
trailing underscore to avoid the Python reserved word denotes the class
attribute. -/
def normKey (k : String) : String :=
  if k == "class_" then "class" else k

/-- The query BeautifulSoup builds from the kwargs of
find of a chain step: keys renamed, string values kept whole. -/
def tagDictSpec (d : TagDict) : BsSpec :=
  ⟨d.tag, d.attrs.map (fun kv => (normKey kv.1, SpecVal.s kv.2))⟩

/-- Whether an element node satisfies a search-chain step. -/
def matchesTag (n : Node) (d : TagDict) : Bool :=
  matchesSpec n (tagDictSpec d)

mutual

/-- First element of the node list (searching each node and then its
descendants, in pre-order) satisfying the query. -/
def findFirstIn (q : BsSpec) : List Node → Option Node
  | [] => none
  | n :: ns =>
    match findFirstNode q n with
    | some r => some r
    | none => findFirstIn q ns

/-- First of the node itself and its descendants (in pre-order)
satisfying the query. -/
def findFirstNode (q : BsSpec) : Node → Option Node
  | .text _ => none
  | .elem t as cs =>
    if matchesSpec (.elem t as cs) q then some (.elem t as cs)
    else findFirstIn q cs

end

/-- BeautifulSoup find on a node: first strict descendant, in document
(pre-order) order, satisfying the query. -/
def findFirstSpec (n : Node) (q : BsSpec) : Option Node :=
  match n with
  | .text _ => none
  | .elem _ _ cs => findFirstIn q cs

/-- BeautifulSoup find for a search-chain step. -/
def findFirst (n : Node) (d : TagDict) : Option Node :=
  findFirstSpec n (tagDictSpec d)

mutual

/-- The descendant text-node strings of a node, itself included when it
is a text node, in document order (the strings BeautifulSoup get_text
walks over). -/
def nodeStrings : Node → List String
  | .text s => [s]
  | .elem _ _ cs => nodesStrings cs

/-- The descendant text-node strings of a node list, in document order. -/
def nodesStrings : List Node → List String
  | [] => []
  | n :: ns => nodeStrings n ++ nodesStrings ns

end

/-- BeautifulSoup get_text with a separator and strip set to True: each
descendant string is stripped, empty results are dropped, and the rest
are joined with the separator. -/
def pyGetText (n : Node) (sep : String) : String :=
  pyJoin sep (((nodeStrings n).map pyStrip).filter (fun s => s ≠ ""))

mutual

/-- All descendant elements of the node (the node included when it is a
matching element) satisfying the query, in pre-order, each paired with
its ancestor elements innermost first (the given list extended while
descending). BeautifulSoup find_all plus parent access. -/
def findAllNode (q : BsSpec) (anc : List Node) : Node → List (Node × List Node)
  | .text _ => []
  | .elem t as cs =>
    (if matchesSpec (.elem t as cs) q then [((Node.elem t as cs), anc)] else [])
      ++ findAllIn q (Node.elem t as cs :: anc) cs

/-- All matching elements of the node list with ancestors, in pre-order. -/
def findAllIn (q : BsSpec) (anc : List Node) : List Node → List (Node × List Node)
  | [] => []
  | n :: ns => findAllNode q anc n ++ findAllIn q anc ns

end

/-- Modelled from the spec: the exception classes of core/errors.py,
which is not in the tree; only its call sites are. Constructors follow
the raise sites in src and the taxonomy of spec section 7:
pageNotFound and requestFailed carry a message, the URL and the HTTP
status code; scraperError (spec kinds NoMatchingPath and TransportError)
carries a message and the URL. -/
inductive ScrapeError where
  | pageNotFound (message url : String) (statusCode : Nat)
  | requestFailed (message url : String) (statusCode : Nat)
  | scraperError (message url : String)
  deriving Repr

/-- Outcome of the underlying httpx GET: either a final response with a
status code and body (redirects already followed), or an httpx
RequestError (DNS, connection, timeout, TLS) that produced no response. -/
inductive HttpResult where
  | response (statusCode : Nat) (body : String)
  | requestError (errMsg : String)
  deriving Repr

/-- httpx success statuses: raise_for_status raises HTTPStatusError
exactly when the status is not in the 2xx range. -/
def is2xx (s : Nat) : Bool :=
  200 ≤ s && s < 300

/-- src/client/scrape_html.py scrape_html: performs the GET (its outcome
is the given HttpResult) and classifies failures; on success parses the
body with the external HTML parser (the given parse function). -/
def scrape_html (url : String) (result : HttpResult) (parse : String → Node) :
    Except ScrapeError Node :=
  match result with
  | .response s body =>
    if is2xx s then .ok (parse body)
    else if s == 404 then .error (.pageNotFound "Page not found" url s)
    else .error (.requestFailed "HTTP request failed" url s)
  | .requestError m => .error (.scraperError ("Could not retrieve page: " ++ m) url)

/-- The fixed marketing opening phrase of
_remove_dealership_marketing_paragraph. -/
def mktPhrase : String := "Introducing the All New Greg Hubler Promise:"

/-- Case-insensitive match of the pattern at the head of the list. -/
def ciBeginsWith : List Char → List Char → Bool
  | [], _ => true
  | _ :: _, [] => false
  | a :: as, b :: bs => a.toLower == b.toLower && ciBeginsWith as bs

/-- re.search of a fixed literal pattern with IGNORECASE: index of the
first case-insensitive occurrence of pat. -/
def findCI (pat : List Char) : List Char → Option Nat
  | [] => if pat.isEmpty then some 0 else none
  | c :: rest =>
    if ciBeginsWith pat (c :: rest) then some 0
    else (findCI pat rest).map (· + 1)

/-- Length of the leading run of Python whitespace. -/
def spaceRunLen : List Char → Nat
  | [] => 0
  | c :: rest => if pyIsSpace c then spaceRunLen rest + 1 else 0

/-- Length of a match, at the head of the list, of the break regex of
_remove_dealership_marketing_paragraph (an HTML br tag with optional
whitespace and optional slash, case-insensitive, or a newline). -/
def breakLenAt : List Char → Option Nat
  | '\n' :: _ => some 1
  | '<' :: c2 :: c3 :: rest =>
    if c2.toLower == 'b' && c3.toLower == 'r' then
      let k := spaceRunLen rest
      match rest.drop k with
      | '>' :: _ => some (4 + k)
      | '/' :: '>' :: _ => some (5 + k)
      | _ => none
    else none
  | _ => none

/-- re.search of the break regex: offset just past the first match (the
match end), scanning left to right. -/
def searchBreak : List Char → Option Nat
  | [] => none
  | c :: rest =>
    match breakLenAt (c :: rest) with
    | some k => some k
    | none => (searchBreak rest).map (· + 1)

/-- re.search of a literal period: offset just past the first period. -/
def searchPeriod : List Char → Option Nat
  | [] => none
  | c :: rest => if c == '.' then some 1 else (searchPeriod rest).map (· + 1)

/-- Fuel-indexed body of the whitespace collapse (the fuel, at least
the list length, makes the recursion structural; each step consumes at
least one character). -/
def collapseWsFuel : Nat → List Char → List Char
  | 0, l => l
  | _ + 1, [] => []
  | fuel + 1, c :: rest =>
    if 2 ≤ spaceRunLen (c :: rest) then
      ' ' :: collapseWsFuel fuel ((c :: rest).drop (spaceRunLen (c :: rest)))
    else c :: collapseWsFuel fuel rest

/-- re.sub replacing runs of two or more whitespace characters by one
space: a maximal whitespace run of length at least two becomes a single
space, any other character (including a lone whitespace) stays. -/
def collapseWs (l : List Char) : List Char :=
  collapseWsFuel l.length l

/-- src/core/helper_functions/fetch_vdp_html.py
_remove_dealership_marketing_paragraph: removes, when the marketing
phrase occurs, the span from the first occurrence to the end of the
first break marker after it, else to just past the first period after
it, else to the end of the text; then collapses whitespace runs of
length at least two to one space and strips the result. -/
def removeDealershipMarketingParagraph (text : String) : String :=
  match findCI mktPhrase.data text.data with
  | none => text
  | some startIndex =>
    let tail := text.data.drop startIndex
    let endIndex :=
      match searchBreak tail with
      | some e => startIndex + e
      | none =>
        match searchPeriod tail with
        | some e => startIndex + e
        | none => text.data.length
    let cleaned := text.data.take startIndex ++ text.data.drop endIndex
    String.mk (pyStripList (collapseWs cleaned))

/-- The inner level loop of fetch_vdp_html over one chain: current is
the element descended to so far, lastFound the last successful find; a
failed find stops the loop and keeps lastFound. -/
def chainLoop : Node → List TagDict → Option Node → Option Node
  | _, [], lastFound => lastFound
  | current, level :: rest, lastFound =>
    match findFirst current level with
    | none => lastFound
    | some e => chainLoop e rest (some e)

/-- The chain loop of fetch_vdp_html: chains are tried in order; the
first chain whose loop ends with a non-none lastFound wins and its
element text (separator a space, stripped) is returned. -/
def resolveSet (soup : Node) : List (List TagDict) → Option String
  | [] => none
  | chain :: rest =>
    match chainLoop soup chain none with
    | some lastFound => some (pyGetText lastFound " ")
    | none => resolveSet soup rest

/-- The chain rendering of fetch_vdp_html: for each step the tag, then
in parentheses the key=value entries other than tag, steps joined by
a greater-than sign between spaces. -/
def chainRepr (chain : List TagDict) : String :=
  pyJoin " > "
    (chain.map (fun d =>
      d.tag ++ "(" ++ pyJoin ", " (d.attrs.map (fun kv => kv.1 ++ "=" ++ kv.2)) ++ ")"))

/-- The failure message of fetch_vdp_html, listing every attempted
chain rendering. -/
def noPathMessage (attempted : List String) : String :=
  "Could not find description section using provided tag search paths.\n"
    ++ "Tried the following chains (outermost to innermost):\n"
    ++ pyJoin "\n" (attempted.map (fun p => "  - " ++ p))

/-- src/core/helper_functions/fetch_vdp_html.py fetch_vdp_html, after
the page fetch: resolves the chain set against the parsed document,
applies the marketing-paragraph removal to the winning text, and raises
ScraperError listing every attempted chain when no chain matched. -/
def fetch_vdp_html_core (vdp_url : String) (soup : Node)
    (search_paths : List (List TagDict)) : Except ScrapeError String :=
  match resolveSet soup search_paths with
  | some text => .ok (removeDealershipMarketingParagraph text)
  | none =>
    .error (.scraperError (noPathMessage (search_paths.map chainRepr)) vdp_url)

/-- src/core/helper_functions/fetch_vdp_html.py fetch_vdp_html: fetch
and parse the page, then resolve the chain set against it. -/
def fetch_vdp_html (vdp_url : String) (result : HttpResult) (parse : String → Node)
    (search_paths : List (List TagDict)) : Except ScrapeError String := do
  let soup ← scrape_html vdp_url result parse
  fetch_vdp_html_core vdp_url soup search_paths

/-- The fixed registry table of determine_vdp_search_path, in source
(insertion) order: domain pattern mapped to its chain set. -/
def search_paths_by_domain : List (String × List (List TagDict)) :=
  [("greghublerford.com",
     [[⟨"div", [("id", "vehicle-description")]⟩,
       ⟨"div", [("class_", "description")]⟩]]),
   ("sftoyota.com",
     [[⟨"div", [("class", "dealer-comments dealer-comments--square")]⟩,
       ⟨"div", [("id", "dealer-comments"), ("class", "dealer-comments__text")]⟩]]),
   ("bergeronchryslerjeep.com",
     [[⟨"div", [("id", "dealernotes1-app-root")]⟩,
       ⟨"div", [("class", "content")]⟩]])]

/-- The pattern scan of determine_vdp_search_path over a registry
table: first entry, in order, whose lowercased pattern is a substring
of the normalized URL wins. -/
def lookupSearchPath (table : List (String × List (List TagDict)))
    (normalizedUrl : String) : Option (List (List TagDict)) :=
  match table with
  | [] => none
  | (pat, sp) :: rest =>
    if pyInStr (pyLower pat) normalizedUrl then some sp
    else lookupSearchPath rest normalizedUrl

/-- The Python repr of the list of registry pattern keys, as
interpolated into the failure message. -/
def patternsRepr (table : List (String × List (List TagDict))) : String :=
  "[" ++ pyJoin ", " (table.map (fun e => "'" ++ e.1 ++ "'")) ++ "]"

/-- src/core/helper_functions/fetch_vdp_html.py determine_vdp_search_path:
netloc and path are the urlparse components of vdp_url (urlparse is the
external stdlib); the URL is normalized to lowercased netloc plus path,
the table is scanned in order for a pattern occurring in the normalized
value, and on no match a ScraperError naming the URL and the checked
patterns is raised. -/
def determine_vdp_search_path (vdp_url netloc path : String) :
    Except ScrapeError (List (List TagDict)) :=
  let normalized := pyLower (netloc ++ path)
  match lookupSearchPath search_paths_by_domain normalized with
  | some sp => .ok sp
  | none =>
    .error (.scraperError
      ("No matching search path pattern found for URL: " ++ vdp_url
        ++ "\nChecked patterns: " ++ patternsRepr search_paths_by_domain)
      vdp_url)

/-- A Python value as produced by the JSON-expecting LLM client:
string, integer, list, dict with string keys, or None. -/
inductive PyVal where
  | pstr (s : String)
  | pint (n : Int)
  | plist (xs : List PyVal)
  | pdict (kvs : List (String × PyVal))
  | pnone

/-- Python truthiness for those values. -/
def pyTruthy : PyVal → Bool
  | .pstr s => s ≠ ""
  | .pint n => n ≠ 0
  | .plist xs => !xs.isEmpty
  | .pdict kvs => !kvs.isEmpty
  | .pnone => false

/-- Python equality of a value with a string literal: true only for the
equal string (any other value compares unequal to a string). -/
def pyEqStr (v : PyVal) (s : String) : Bool :=
  match v with
  | .pstr t => t == s
  | _ => false

/-- Python list repr of a list of strings, as interpolated by an
f-string. -/
def pyStrListRepr (xs : List String) : String :=
  "[" ++ pyJoin ", " (xs.map (fun x => "'" ++ x ++ "'")) ++ "]"

/-- The f-string rendering of one stored attribute in _extract_headings:
key equals quoted value, where a multi-valued class attribute
interpolates as the Python list repr of its tokens. -/
def headingAttrRender (kv : String × AttrVal) : String :=
  match kv.2 with
  | .one s => kv.1 ++ "=\"" ++ s ++ "\""
  | .toks ts => kv.1 ++ "=\"" ++ pyStrListRepr ts ++ "\""

/-- find_all over the whole document for a query: all elements of the
parsed tree, in pre-order, with their ancestor elements innermost
first. -/
def findAllDoc (soup : Node) (q : BsSpec) : List (Node × List Node) :=
  match soup with
  | .text _ => []
  | .elem _ _ cs => findAllIn q [] cs

/-- src/core/main_functions/determine_vpd_search_paths.py
_extract_headings, applied as the source does to the html element of
the soup: for each heading level one to six, every element of that tag
below the html element, rendered as opening tag with attributes, text
content with strip, and closing tag. For a document without an html
element the source raises AttributeError (full_html_soup.html is None
and _extract_headings calls find_all on it); that raise is the none
outcome here, never a normal return. -/
def extractHeadings (soup : Node) : Option (List String) :=
  match findFirstSpec soup ⟨"html", []⟩ with
  | none => none
  | some htmlElem =>
    some ((["h1", "h2", "h3", "h4", "h5", "h6"].map (fun hname =>
      (findAllDoc htmlElem ⟨hname, []⟩).map (fun m =>
        match m.1 with
        | .elem t as _ =>
          let attrsStr := pyJoin " " (as.map headingAttrRender)
          let openTag := if attrsStr == "" then "<" ++ t ++ ">" else "<" ++ t ++ " " ++ attrsStr ++ ">"
          openTag ++ pyGetText m.1 "" ++ "</" ++ t ++ ">"
        | .text s => s))).flatten)

/-- The early-exit test of determine_vpd_search_paths: the stage-A
response designates a heading when it is a dict having a tag key whose
value is not the no_match sentinel. -/
def designatesHeading (v : PyVal) : Bool :=
  match v with
  | .pdict kvs =>
    match alistGet "tag" kvs with
    | some tv => !(pyEqStr tv "no_match")
    | none => false
  | _ => false

/-- Python str.split with no arguments, on character lists with a word
accumulator: splits on whitespace runs, producing no empty tokens. -/
def pySplitWsAux : List Char → List Char → List String
  | [], acc => if acc.isEmpty then [] else [String.mk acc.reverse]
  | c :: rest, acc =>
    if pyIsSpace c then
      if acc.isEmpty then pySplitWsAux rest []
      else String.mk acc.reverse :: pySplitWsAux rest []
    else pySplitWsAux rest (c :: acc)

/-- The class-string splitting of _get_parent_div_from_tag_dict: commas
replaced by spaces, then whitespace split dropping empty tokens. -/
def splitClasses (s : String) : List String :=
  pySplitWsAux (s.data.map (fun c => if c == ',' then ' ' else c)) []

/-- The expected value placed into search_attrs for one dict entry of
_get_parent_div_from_tag_dict: a class string is split into its token
list; any other string is kept whole. A truthy non-string value is out
of model (the Python code would fail on a non-string class and match a
non-string attribute value against nothing); it is mapped to an empty
alternative list, which matches nothing, and the theorems about this
function restrict the dict values to strings. -/
def specValOfPy (k : String) (v : PyVal) : SpecVal :=
  if k == "class" then
    match v with
    | .pstr s => .l (splitClasses s)
    | _ => .l []
  else
    match v with
    | .pstr s => .s s
    | _ => .l []

/-- The attribute dictionary built by _get_parent_div_from_tag_dict:
entries other than tag and contents, with falsy values skipped, in dict
order. -/
def buildSearchAttrs (kvs : List (String × PyVal)) : List (String × SpecVal) :=
  (kvs.filter (fun kv => kv.1 ≠ "tag" && kv.1 ≠ "contents" && pyTruthy kv.2)).map
    (fun kv => (kv.1, specValOfPy kv.1 kv.2))

mutual

/-- The bs4 str() serialization of a node: opening tag with attributes
(multi-valued attributes joined by spaces), serialized children, closing
tag; text nodes serialize to their string. -/
def renderNode : Node → String
  | .text s => s
  | .elem t as cs =>
    "<" ++ t
      ++ pyJoin ""
        (as.map (fun kv =>
          " " ++ kv.1 ++ "=\""
            ++ (match kv.2 with
                | .one s => s
                | .toks ts => pyJoin " " ts)
            ++ "\""))
      ++ ">" ++ renderNodes cs ++ "</" ++ t ++ ">"

/-- Serialization of a node list. -/
def renderNodes : List Node → String
  | [] => ""
  | n :: ns => renderNode n ++ renderNodes ns

end

/-- src/core/main_functions/determine_vpd_search_paths.py
_get_parent_div_from_tag_dict: from the dict entries, finds all
elements matching the tag and attributes (class split into tokens, any
of which may match), narrows by the contents hint when more than one
element matched and the hint is truthy (keeping elements whose stripped
text contains the hint case-insensitively), and returns the serialized
nearest ancestor div of the first survivor. A truthy non-string tag or
contents value is out of model (Python would fail); the theorems
restrict those to strings. -/
def getParentDivFromTagDict (soup : Node) (kvs : List (String × PyVal)) :
    Option String :=
  let tagName := alistGet "tag" kvs
  let contentsText := alistGet "contents" kvs
  match tagName with
  | some (.pstr t) =>
    if t == "" then none
    else
      let searchAttrs := buildSearchAttrs kvs
      let matchedTags := findAllDoc soup ⟨t, searchAttrs⟩
      if matchedTags.isEmpty then none
      else
        let matchedTags' :=
          if 1 < matchedTags.length then
            match contentsText with
            | some (.pstr c) =>
              if c ≠ "" then
                matchedTags.filter (fun m =>
                  pyInStr (pyLower (pyStrip c)) (pyLower (pyGetText m.1 "")))
              else matchedTags
            | _ => matchedTags
          else matchedTags
        match matchedTags' with
        | [] => none
        | m :: _ =>
          match m.2.find? (fun a =>
            match a with
            | .elem t' _ _ => t' == "div"
            | .text _ => false) with
          | some parentDiv => some (renderNode parentDiv)
          | none => none
  | _ => none

/-- src/core/main_functions/determine_vpd_search_paths.py
determine_vpd_search_paths: extract the headings (a document without an
html element makes heading extraction raise before stage A — the none
outcome), query the model for the description heading (stage A, an
oracle from the extracted headings to a response and a token count); on
no designated heading return the no-section message with the stage-A
cost; otherwise locate the parent div and, when found, query the model
for the search paths (stage B, an oracle from the serialized div to a
response and a token count) and return its response with the summed
cost. -/
def determine_vpd_search_paths (doc : Node)
    (stageA : List String → PyVal × Nat) (stageB : String → PyVal × Nat) :
    Option (PyVal × Nat) :=
  match extractHeadings doc with
  | none => none
  | some extracted =>
    let a := stageA extracted
    let headingsSearchResult := a.1
    let tokenCount1 := a.2
    if designatesHeading headingsSearchResult then
      let kvs := match headingsSearchResult with
        | .pdict kvs => kvs
        | _ => []
      match getParentDivFromTagDict doc kvs with
      | none =>
        some (.pstr "Couldn't find match for heading serach result in original HTML",
          tokenCount1)
      | some parentDivStr =>
        let b := stageB parentDivStr
        some (b.1, tokenCount1 + b.2)
    else
      some (.pstr "No dealer comments section found on webpage", tokenCount1)

/-- Replace the value bound to a key, or append the binding (Python
dict item assignment: an existing key keeps its position). -/
def alistSet {α : Type} (k : String) (v : α) : List (String × α) → List (String × α)
  | [] => [(k, v)]
  | (k', v') :: rest => if k' == k then (k, v) :: rest else (k', v') :: alistSet k v rest

/-- The fallback sentinel of isolate_vehicle_description. -/
def fallbackMessage : String := "No description found."

/-- src/core/helper_functions/isolate_vehicle_description.py
isolate_vehicle_description: queries the model (an oracle from the
prompt to a response and a token count) and normalizes the response
into a dict with a description key: a string response is stripped, with
the fallback for an empty result; a dict response gets the fallback
written into its description key when that value strips to empty (a
truthy non-string description value is out of model and treated as
empty); any other response becomes a fresh fallback dict. -/
def isolate_vehicle_description (prompt : String)
    (llm : String → PyVal × Nat) : PyVal × Nat :=
  let r := llm prompt
  let result := r.1
  let tokenCount := r.2
  let normalized :=
    match result with
    | .pstr s =>
      let description := if pyStrip s == "" then fallbackMessage else pyStrip s
      PyVal.pdict [("description", .pstr description)]
    | .pdict kvs =>
      let description :=
        match alistGet "description" kvs with
        | some (.pstr s) => if pyTruthy (.pstr s) then pyStrip s else ""
        | _ => ""
      if description == "" then
        PyVal.pdict (alistSet "description" (.pstr fallbackMessage) kvs)
      else PyVal.pdict kvs
    | _ => PyVal.pdict [("description", .pstr fallbackMessage)]
  (normalized, tokenCount)

/-- src/core/main_functions/scrape_description.py scrape_description:
determine the registry search paths for the URL (netloc and path are
its urlparse components), fetch and resolve the page text, isolate the
description with the model oracle, and return the description with the
token count. The branch for a non-dict isolation result is unreachable
because isolate_vehicle_description always returns a dict; its
interpolated message is abbreviated here. -/
def scrape_description (vdp_url netloc path : String) (httpResult : HttpResult)
    (parse : String → Node) (isolateLLM : String → PyVal × Nat) :
    Except ScrapeError (String × Nat) := do
  let search_paths ← determine_vdp_search_path vdp_url netloc path
  let full_notes_text ← fetch_vdp_html vdp_url httpResult parse search_paths
  let q := isolate_vehicle_description full_notes_text isolateLLM
  let description : String :=
    match q.1 with
    | .pdict kvs =>
      match alistGet "description" kvs with
      | some (.pstr s) => s
      | _ => ""
    | _ => "Failed to isolate vehicle description."
  .ok (description, q.2)

/-! Specification-side definitions, used to state the claims
independently of the loop shape of the sources. -/

/-- Step-by-step descent from an element: at each step the first
matching descendant is taken; the first unmatched step stops the
descent, keeping the element reached so far. -/
def descendFrom (e : Node) : List TagDict → Node
  | [] => e
  | s :: ss =>
    match findFirst e s with
    | none => e
    | some e2 => descendFrom e2 ss

mutual

/-- The node and all its descendants in pre-order (document order). -/
def preNodes : Node → List Node
  | .text s => [.text s]
  | .elem t as cs => .elem t as cs :: preNodesList cs

/-- All nodes of the list and their descendants in pre-order. -/
def preNodesList : List Node → List Node
  | [] => []
  | n :: ns => preNodes n ++ preNodesList ns

end

/-- The strict descendants of a node in pre-order (document order). -/
def descendantsOf : Node → List Node
  | .text _ => []
  | .elem _ _ cs => preNodesList cs

/-- Case-insensitive occurrence of the pattern at position i. -/
def ciMatchAt (pat l : List Char) (i : Nat) : Bool :=
  ciBeginsWith pat (l.drop i)

/-- Whether a period stands at position j. -/
def periodAt (l : List Char) (j : Nat) : Bool :=
  match l.drop j with
  | c :: _ => c == '.'
  | [] => false

/-- The end of the span removed by the marketing stripper, as the code
computes it: the end of the first break marker at or after i, else just
past the first period at or after i, else the text length. -/
def spanEndOf (l : List Char) (i : Nat) : Nat :=
  match searchBreak (l.drop i) with
  | some e => i + e
  | none =>
    match searchPeriod (l.drop i) with
    | some e => i + e
    | none => l.length

/-- The specification of the removed-span end e for a phrase occurrence
at i: e ends the first break marker at or after i; when no break marker
occurs at or after i, e is just past the first period at or after i;
when neither occurs, e is the text length. -/
def spanEndSpec (l : List Char) (i e : Nat) : Prop :=
  (∃ j len, i ≤ j ∧ j + len = e ∧ breakLenAt (l.drop j) = some len
      ∧ ∀ j', i ≤ j' → j' < j → breakLenAt (l.drop j') = none)
  ∨ ((∀ j, i ≤ j → breakLenAt (l.drop j) = none)
      ∧ ((∃ j, i ≤ j ∧ j + 1 = e ∧ periodAt l j = true
            ∧ ∀ j', i ≤ j' → j' < j → periodAt l j' = false)
         ∨ ((∀ j, i ≤ j → periodAt l j = false) ∧ e = l.length)))

/-- The attribute-matching rule the claim ascribes to a multi-token
class value: it matches when any of its space- or comma-separated
tokens is present among the element class tokens. -/
def anyClassTokenPresent (specClass : String) (elemClasses : List String) : Bool :=
  (splitClasses specClass).any (fun tok => elemClasses.contains tok)

/-- Whether every value of a dict is a string (the domain on which the
embedding of _get_parent_div_from_tag_dict is faithful). -/
def valuesAreStrings (kvs : List (String × PyVal)) : Bool :=
  kvs.all (fun kv =>
    match kv.2 with
    | .pstr _ => true
    | _ => false)

/-! Concrete sample inputs used by witnesses and counterexamples. -/

/-- The document of end-to-end scenario 1 (the mock HTML of
test_html_parsing_vehicle_description). -/
def sampleInner1 : Node :=
  .elem "div" [("id", .one "vehicle-description")]
    [.text "\n ",
     .elem "div" [("class", .toks ["description"])]
       [.text " This is the actual description text. "],
     .text "\n "]

/-- The scenario-1 document root. -/
def sampleDoc1 : Node :=
  .elem "[document]" []
    [.elem "html" [] [.elem "body" [] [.text "\n", sampleInner1, .text "\n"]]]

/-- First step of the scenario-1 chain. -/
def step1 : TagDict := ⟨"div", [("id", "vehicle-description")]⟩

/-- Second step of the scenario-1 chain (class spelled with the
trailing underscore, as in the registry entry). -/
def step2 : TagDict := ⟨"div", [("class_", "description")]⟩

/-- A document whose only div carries the two class tokens a and b. -/
def c3Doc : Node :=
  .elem "[document]" []
    [.elem "div" [("class", .toks ["a", "b"])] [.text "x"]]

/-- A resolver step whose class value holds the two tokens a and c:
token a is present on the c3Doc div. -/
def c3Step : TagDict := ⟨"div", [("class", "a c")]⟩

/-- A document with no div at all (the mock HTML of
test_html_parsing_no_vehicle_description). -/
def c4Doc : Node :=
  .elem "[document]" []
    [.elem "html" [] [.elem "body" [] [.elem "p" [] [.text "No vehicle description here."]]]]

/-- The chain set used by the offline tests. -/
def c4Chains : List (List TagDict) := [[step1, step2]]

/-- The text of end-to-end scenario 3. -/
def c6Sample : String :=
  "Some intro. Introducing the All New Greg Hubler Promise: This is marketing text. More description afterwards."

/-! Helper lemmas. -/

theorem beginsWith_append_self (n r : List Char) : beginsWith n (n ++ r) = true := by
  induction n with
  | nil => rfl
  | cons a as ih => simp [beginsWith, ih]

theorem beginsWith_exists (n h : List Char) (hb : beginsWith n h = true) :
    ∃ s, h = n ++ s := by
  induction n generalizing h with
  | nil => exact ⟨h, rfl⟩
  | cons a as ih =>
    cases h with
    | nil => simp [beginsWith] at hb
    | cons b bs =>
      simp only [beginsWith, Bool.and_eq_true, beq_iff_eq] at hb
      obtain ⟨s, hs⟩ := ih bs hb.2
      exact ⟨s, by simp [hb.1, hs]⟩

theorem pyInAux_iff (n h : List Char) :
    pyInAux n h = true ↔ ∃ p s, h = p ++ n ++ s := by
  induction h with
  | nil =>
    simp only [pyInAux]
    constructor
    · intro hb
      obtain ⟨s, hs⟩ := beginsWith_exists n [] hb
      exact ⟨[], s, by simpa using hs⟩
    · rintro ⟨p, s, hps⟩
      have hn : n = [] := by
        have hl := congrArg List.length hps
        simp only [List.length_nil, List.length_append] at hl
        have : n.length = 0 := by omega
        exact List.length_eq_zero.mp this
      rw [hn]
      rfl
  | cons c t ih =>
    simp only [pyInAux, Bool.or_eq_true]
    constructor
    · rintro (hb | hrest)
      · obtain ⟨s, hs⟩ := beginsWith_exists n (c :: t) hb
        exact ⟨[], s, by simpa using hs⟩
      · obtain ⟨p, s, hps⟩ := ih.1 hrest
        exact ⟨c :: p, s, by simp [hps]⟩
    · rintro ⟨p, s, hps⟩
      cases p with
      | nil =>
        left
        simp only [List.nil_append] at hps
        rw [hps]
        exact beginsWith_append_self n s
      | cons d ds =>
        right
        apply ih.2
        refine ⟨ds, s, ?_⟩
        have : c = d ∧ t = ds ++ n ++ s := by
          simpa using hps
        simp [this.2]

theorem mem_pyJoin_split (sep : String) (parts : List String) (x : String)
    (hx : x ∈ parts) :
    ∃ p s, (pyJoin sep parts).data = p ++ x.data ++ s := by
  induction parts with
  | nil => simp at hx
  | cons q rest ih =>
    rcases List.mem_cons.mp hx with hq | hrest
    · cases rest with
      | nil =>
        exact ⟨[], [], by simp [pyJoin, hq]⟩
      | cons r rs =>
        refine ⟨[], (sep ++ pyJoin sep (r :: rs)).data, ?_⟩
        simp [pyJoin, hq, String.data_append]
    · have hrest' : rest ≠ [] := List.ne_nil_of_mem hrest
      obtain ⟨p, s, hps⟩ := ih hrest
      cases rest with
      | nil => simp at hrest
      | cons r rs =>
        refine ⟨(q ++ sep).data ++ p, s, ?_⟩
        simp [pyJoin, String.data_append, hps]

theorem pyInStr_noPathMessage (attempted : List String) (x : String)
    (hx : x ∈ attempted) :
    pyInStr x (noPathMessage attempted) = true := by
  have hline : ("  - " ++ x) ∈ attempted.map (fun p => "  - " ++ p) :=
    List.mem_map.mpr ⟨x, hx, rfl⟩
  obtain ⟨p, s, hps⟩ := mem_pyJoin_split "\n" (attempted.map (fun p => "  - " ++ p)) _ hline
  rw [pyInStr, pyInAux_iff]
  refine ⟨("Could not find description section using provided tag search paths.\n"
      ++ "Tried the following chains (outermost to innermost):\n").data
      ++ (p ++ ("  - " : String).data), s, ?_⟩
  simp only [noPathMessage, String.data_append] at hps ⊢
  rw [hps]
  simp [String.data_append]

theorem chainLoop_some (ss : List TagDict) (e : Node) :
    chainLoop e ss (some e) = some (descendFrom e ss) := by
  induction ss generalizing e with
  | nil => rfl
  | cons s rest ih =>
    simp only [chainLoop, descendFrom]
    cases findFirst e s with
    | none => rfl
    | some e2 => exact ih e2

theorem find?_append {α : Type} (p : α → Bool) (l1 l2 : List α) :
    (l1 ++ l2).find? p = ((l1.find? p).orElse (fun _ => l2.find? p)) := by
  induction l1 with
  | nil => rfl
  | cons a as ih =>
    simp only [List.cons_append, List.find?]
    cases p a with
    | true => rfl
    | false => simpa using ih

mutual

theorem findFirstNode_eq_find? (q : BsSpec) :
    (n : Node) → findFirstNode q n = (preNodes n).find? (fun m => matchesSpec m q)
  | .text s => by
    simp [findFirstNode, preNodes, List.find?, matchesSpec]
  | .elem t as cs => by
    rw [findFirstNode, preNodes, List.find?]
    cases hm : matchesSpec (.elem t as cs) q with
    | true => simp [hm]
    | false => simp [hm, findFirstIn_eq_find? q cs]

theorem findFirstIn_eq_find? (q : BsSpec) :
    (ns : List Node) → findFirstIn q ns = (preNodesList ns).find? (fun m => matchesSpec m q)
  | [] => by simp [findFirstIn, preNodesList, List.find?]
  | n :: ns => by
    rw [findFirstIn, preNodesList, find?_append, ← findFirstNode_eq_find? q n,
      ← findFirstIn_eq_find? q ns]
    cases findFirstNode q n with
    | none => simp [Option.orElse]
    | some r => simp [Option.orElse]

end

theorem findFirst_eq_find? (n : Node) (d : TagDict) :
    findFirst n d = (descendantsOf n).find? (fun m => matchesTag m d) := by
  cases n with
  | text s => rfl
  | elem t as cs =>
    rw [findFirst, findFirstSpec, descendantsOf, findFirstIn_eq_find?]
    rfl

theorem findCI_least (pat l : List Char) (i : Nat) (h : findCI pat l = some i) :
    ciMatchAt pat l i = true ∧ ∀ j, j < i → ciMatchAt pat l j = false := by
  induction l generalizing i with
  | nil =>
    rw [findCI] at h
    by_cases hp : pat.isEmpty
    · simp only [hp, if_true, Option.some.injEq] at h
      subst h
      constructor
      · rw [ciMatchAt, List.drop_nil]
        cases pat with
        | nil => rfl
        | cons a as => simp at hp
      · intro j hj
        omega
    · simp [hp] at h
  | cons c rest ih =>
    rw [findCI] at h
    by_cases hb : ciBeginsWith pat (c :: rest) = true
    · simp only [hb, if_true, Option.some.injEq] at h
      subst h
      refine ⟨by simpa [ciMatchAt] using hb, ?_⟩
      intro j hj
      omega
    · rw [if_neg hb, Option.map_eq_some'] at h
      obtain ⟨i', hi', hii⟩ := h
      subst hii
      obtain ⟨h1, h2⟩ := ih i' hi'
      refine ⟨by simpa [ciMatchAt] using h1, ?_⟩
      intro j hj
      cases j with
      | zero =>
        simpa [ciMatchAt] using hb
      | succ j' =>
        have : j' < i' := by omega
        simpa [ciMatchAt] using h2 j' this

theorem searchBreak_spec (l : List Char) (e : Nat) (h : searchBreak l = some e) :
    ∃ j len, j + len = e ∧ breakLenAt (l.drop j) = some len
      ∧ ∀ j', j' < j → breakLenAt (l.drop j') = none := by
  induction l generalizing e with
  | nil => simp [searchBreak] at h
  | cons c rest ih =>
    rw [searchBreak] at h
    cases hb : breakLenAt (c :: rest) with
    | some k =>
      rw [hb, Option.some.injEq] at h
      subst h
      exact ⟨0, k, by omega, by simpa using hb, fun j' hj' => by omega⟩
    | none =>
      rw [hb, Option.map_eq_some'] at h
      obtain ⟨e', he', hee⟩ := h
      subst hee
      obtain ⟨j, len, hjl, hbr, hleast⟩ := ih e' he'
      refine ⟨j + 1, len, by omega, by simpa using hbr, ?_⟩
      intro j' hj'
      cases j' with
      | zero => simpa using hb
      | succ j'' =>
        have : j'' < j := by omega
        simpa using hleast j'' this

theorem searchBreak_none (l : List Char) (h : searchBreak l = none) :
    ∀ j, breakLenAt (l.drop j) = none := by
  induction l with
  | nil =>
    intro j
    rw [List.drop_nil]
    rfl
  | cons c rest ih =>
    rw [searchBreak] at h
    cases hb : breakLenAt (c :: rest) with
    | some k => rw [hb] at h; exact absurd h (by simp)
    | none =>
      rw [hb, Option.map_eq_none'] at h
      intro j
      cases j with
      | zero => simpa using hb
      | succ j' => simpa using ih h j'

theorem searchPeriod_spec (l : List Char) (e : Nat) (h : searchPeriod l = some e) :
    ∃ j, j + 1 = e ∧ periodAt l j = true ∧ ∀ j', j' < j → periodAt l j' = false := by
  induction l generalizing e with
  | nil => simp [searchPeriod] at h
  | cons c rest ih =>
    rw [searchPeriod] at h
    by_cases hc : (c == '.') = true
    · simp only [hc, if_true, Option.some.injEq] at h
      subst h
      exact ⟨0, rfl, by simpa [periodAt] using hc, fun j' hj' => by omega⟩
    · rw [if_neg (by simpa using hc), Option.map_eq_some'] at h
      obtain ⟨e', he', hee⟩ := h
      subst hee
      obtain ⟨j, hj1, hj2, hleast⟩ := ih e' he'
      refine ⟨j + 1, by omega, by simpa [periodAt] using hj2, ?_⟩
      intro j' hj'
      cases j' with
      | zero => simpa [periodAt] using hc
      | succ j'' =>
        have : j'' < j := by omega
        simpa [periodAt] using hleast j'' this

theorem searchPeriod_none (l : List Char) (h : searchPeriod l = none) :
    ∀ j, periodAt l j = false := by
  induction l with
  | nil =>
    intro j
    simp [periodAt]
  | cons c rest ih =>
    rw [searchPeriod] at h
    by_cases hc : (c == '.') = true
    · simp [hc] at h
    · rw [if_neg (by simpa using hc), Option.map_eq_none'] at h
      intro j
      cases j with
      | zero => simpa [periodAt] using hc
      | succ j' => simpa [periodAt] using ih h j'

theorem breakLenAt_drop (l : List Char) (i j : Nat) :
    breakLenAt ((l.drop i).drop j) = breakLenAt (l.drop (i + j)) := by
  rw [List.drop_drop]

theorem periodAt_drop (l : List Char) (i j : Nat) :
    periodAt (l.drop i) j = periodAt l (i + j) := by
  rw [periodAt, periodAt, List.drop_drop]

/-! Claim theorems. -/

/-- C1. The Tag-Path Resolver tries chains in order. When the first
step of the first chain finds an element, that chain wins: the result
is the visible text (space-joined, whitespace-normalized) of the
element reached by descending step by step, taking the first matching
descendant at each step and stopping at the first unmatched step, and
the remaining chains are never consulted. When the first step finds
nothing (or the chain is empty), resolution moves to the remaining
chains. The first matching descendant is the first element in document
(pre-order) order among the strict descendants that satisfies the step. -/
theorem tag_path_resolver_policy :
    (∀ (soup : Node) (s : TagDict) (ss : List TagDict)
        (rest : List (List TagDict)) (e : Node),
      findFirst soup s = some e →
      resolveSet soup ((s :: ss) :: rest) = some (pyGetText (descendFrom e ss) " "))
    ∧ (∀ (soup : Node) (s : TagDict) (ss : List TagDict)
        (rest : List (List TagDict)),
      findFirst soup s = none →
      resolveSet soup ((s :: ss) :: rest) = resolveSet soup rest)
    ∧ (∀ (soup : Node) (rest : List (List TagDict)),
      resolveSet soup ([] :: rest) = resolveSet soup rest)
    ∧ (∀ (n : Node) (d : TagDict),
      findFirst n d = (descendantsOf n).find? (fun m => matchesTag m d)) := by
  refine ⟨?_, ?_, ?_, findFirst_eq_find?⟩
  · intro soup s ss rest e hf
    simp [resolveSet, chainLoop, hf, chainLoop_some]
  · intro soup s ss rest hf
    simp [resolveSet, chainLoop, hf]
  · intro soup rest
    simp [resolveSet, chainLoop]

/-- C1 witness: scenario 1. The first step matches the outer div, the
chain wins, and the descent reaches the inner div whose text is the
description. -/
theorem tag_path_resolver_policy_witness :
    findFirst sampleDoc1 step1 = some sampleInner1
    ∧ resolveSet sampleDoc1 [[step1, step2]]
        = some (pyGetText (descendFrom sampleInner1 [step2]) " ")
    ∧ pyGetText (descendFrom sampleInner1 [step2]) " "
        = "This is the actual description text." :=
  ⟨by rfl,
   tag_path_resolver_policy.1 sampleDoc1 step1 [step2] [] sampleInner1 (by rfl),
   by rfl⟩

/-- C4. When no chain reaches any element (in particular when no
chain's first step matches anything in the document), fetch_vdp_html
fails with the ScraperError whose message is built from the rendering
of every attempted chain, and each chain's rendering occurs in that
message. -/
theorem resolver_no_match_error (url : String) (soup : Node)
    (chains : List (List TagDict))
    (h : (chains.all (fun c =>
        match c with
        | [] => true
        | s :: _ => (findFirst soup s).isNone)) = true) :
    fetch_vdp_html_core url soup chains
      = .error (.scraperError (noPathMessage (chains.map chainRepr)) url)
    ∧ ∀ c ∈ chains,
        pyInStr (chainRepr c) (noPathMessage (chains.map chainRepr)) = true := by
  constructor
  · have hnone : resolveSet soup chains = none := by
      induction chains with
      | nil => rfl
      | cons c rest ih =>
        rw [List.all_cons, Bool.and_eq_true] at h
        rw [resolveSet]
        have hc : chainLoop soup c none = none := by
          cases c with
          | nil => rfl
          | cons s ss =>
            have : (findFirst soup s).isNone = true := h.1
            rw [chainLoop, Option.isNone_iff_eq_none.mp this]
        rw [hc, ih h.2]
    rw [fetch_vdp_html_core, hnone]
  · intro c hc
    exact pyInStr_noPathMessage _ _ (List.mem_map.mpr ⟨c, hc, rfl⟩)

/-- C4 witness: the document of the offline no-match test with the
offline chain set. -/
theorem resolver_no_match_error_witness :
    (c4Chains.all (fun c =>
        match c with
        | [] => true
        | s :: _ => (findFirst c4Doc s).isNone)) = true
    ∧ fetch_vdp_html_core "https://example.com/fake-car" c4Doc c4Chains
        = .error (.scraperError (noPathMessage (c4Chains.map chainRepr))
            "https://example.com/fake-car")
    ∧ pyInStr (chainRepr [step1, step2]) (noPathMessage (c4Chains.map chainRepr)) = true
    ∧ noPathMessage (c4Chains.map chainRepr)
        = "Could not find description section using provided tag search paths.\nTried the following chains (outermost to innermost):\n  - div(id=vehicle-description) > div(class_=description)" :=
  ⟨by rfl,
   (resolver_no_match_error "https://example.com/fake-car" c4Doc c4Chains (by rfl)).1,
   (resolver_no_match_error "https://example.com/fake-car" c4Doc c4Chains (by rfl)).2
     [step1, step2] (by simp [c4Chains]),
   by rfl⟩

/-- C5. scrape_html classifies a 404 response as PageNotFound (never
the other kinds), any other non-2xx response as RequestFailed carrying
the URL and the status code, and a request error that produced no
response as the generic ScraperError (the TransportError kind of the
taxonomy). -/
theorem scrape_html_status_taxonomy :
    (∀ (url body : String) (parse : String → Node),
      scrape_html url (.response 404 body) parse
        = .error (.pageNotFound "Page not found" url 404))
    ∧ (∀ (url body : String) (parse : String → Node) (s : Nat),
      is2xx s = false → s ≠ 404 →
      scrape_html url (.response s body) parse
        = .error (.requestFailed "HTTP request failed" url s))
    ∧ (∀ (url m : String) (parse : String → Node),
      scrape_html url (.requestError m) parse
        = .error (.scraperError ("Could not retrieve page: " ++ m) url)) := by
  refine ⟨fun url body parse => rfl, ?_, fun url m parse => rfl⟩
  intro url body parse s h2 h404
  rw [scrape_html]
  rw [h2]
  simp only [Bool.false_eq_true, if_false]
  rw [if_neg (by simpa using h404)]

/-- C5 witness: a 500 response classifies as RequestFailed. -/
theorem scrape_html_status_taxonomy_witness :
    is2xx 500 = false
    ∧ (500 : Nat) ≠ 404
    ∧ scrape_html "https://example.com/x" (.response 500 "b") (fun _ => .text "")
        = .error (.requestFailed "HTTP request failed" "https://example.com/x" 500) :=
  ⟨by rfl, by decide,
   scrape_html_status_taxonomy.2.1 "https://example.com/x" "b" (fun _ => .text "")
     500 (by rfl) (by decide)⟩

/-- C7. On text with no case-insensitive occurrence of the marketing
phrase, the stripper returns its input unchanged, hence is idempotent
there. -/
theorem marketing_strip_noop (t : String)
    (h : findCI mktPhrase.data t.data = none) :
    removeDealershipMarketingParagraph t = t
    ∧ removeDealershipMarketingParagraph (removeDealershipMarketingParagraph t) = t := by
  have h1 : removeDealershipMarketingParagraph t = t := by
    rw [removeDealershipMarketingParagraph, h]
  exact ⟨h1, by rw [h1, h1]⟩

/-- C7 witness: the phrase-free text of the offline test. -/
theorem marketing_strip_noop_witness :
    findCI mktPhrase.data ("Regular description text with no marketing content." : String).data = none
    ∧ removeDealershipMarketingParagraph "Regular description text with no marketing content."
        = "Regular description text with no marketing content." :=
  ⟨by rfl,
   (marketing_strip_noop "Regular description text with no marketing content." (by rfl)).1⟩

/-- C10. With a successful fetch and an empty chain-set argument,
fetch_vdp_html attempts no matching and raises the same
no-matching-path ScraperError as a fully non-matching chain set, whose
message renders an empty list of attempted chains. -/
theorem fetch_empty_chain_set (url body : String) (parse : String → Node) :
    fetch_vdp_html url (.response 200 body) parse []
      = .error (.scraperError (noPathMessage ([].map chainRepr)) url)
    ∧ noPathMessage ([].map chainRepr)
        = "Could not find description section using provided tag search paths.\nTried the following chains (outermost to innermost):\n" := by
  exact ⟨rfl, rfl⟩

/-- C6. On text containing the marketing phrase (the hypothesis names
the index the code finds), that index is the first case-insensitive
occurrence, the result is exactly the text before the occurrence
concatenated with the text from the span end onward — whitespace runs
of length at least two collapsed to one space and the result stripped —
and the span end is the end of the first break marker at or after the
occurrence, else just past the first period at or after it, else the
text length. -/
theorem marketing_strip_removes_span (t : String) (i : Nat)
    (h : findCI mktPhrase.data t.data = some i) :
    (ciMatchAt mktPhrase.data t.data i = true
      ∧ ∀ j, j < i → ciMatchAt mktPhrase.data t.data j = false)
    ∧ removeDealershipMarketingParagraph t
        = String.mk (pyStripList (collapseWs
            (t.data.take i ++ t.data.drop (spanEndOf t.data i))))
    ∧ spanEndSpec t.data i (spanEndOf t.data i) := by
  refine ⟨findCI_least _ _ _ h, ?_, ?_⟩
  · rw [removeDealershipMarketingParagraph, h]
    rfl
  · cases hb : searchBreak (t.data.drop i) with
    | some e =>
      have hspan : spanEndOf t.data i = i + e := by rw [spanEndOf, hb]
      rw [hspan]
      obtain ⟨j, len, hjl, hbr, hleast⟩ := searchBreak_spec _ _ hb
      left
      refine ⟨i + j, len, by omega, by omega, ?_, ?_⟩
      · rw [← breakLenAt_drop]
        exact hbr
      · intro j' hij' hj'
        have hk : j' - i < j := by omega
        have := hleast (j' - i) hk
        rw [breakLenAt_drop] at this
        have hidx : i + (j' - i) = j' := by omega
        rwa [hidx] at this
    | none =>
      have hnone : ∀ j, i ≤ j → breakLenAt (t.data.drop j) = none := by
        intro j hij
        have := searchBreak_none _ hb (j - i)
        rw [breakLenAt_drop] at this
        have hidx : i + (j - i) = j := by omega
        rwa [hidx] at this
      cases hp : searchPeriod (t.data.drop i) with
      | some e =>
        have hspan : spanEndOf t.data i = i + e := by rw [spanEndOf, hb, hp]
        rw [hspan]
        right
        refine ⟨hnone, ?_⟩
        obtain ⟨j, hj1, hj2, hleast⟩ := searchPeriod_spec _ _ hp
        left
        refine ⟨i + j, by omega, by omega, ?_, ?_⟩
        · rw [← periodAt_drop]
          exact hj2
        · intro j' hij' hj'
          have hk : j' - i < j := by omega
          have := hleast (j' - i) hk
          rw [periodAt_drop] at this
          have hidx : i + (j' - i) = j' := by omega
          rwa [hidx] at this
      | none =>
        have hspan : spanEndOf t.data i = t.data.length := by rw [spanEndOf, hb, hp]
        rw [hspan]
        right
        refine ⟨hnone, ?_⟩
        right
        refine ⟨?_, rfl⟩
        intro j hij
        have := searchPeriod_none _ hp (j - i)
        rw [periodAt_drop] at this
        have hidx : i + (j - i) = j := by omega
        rwa [hidx] at this

/-- C6 witness: scenario 3, with the occurrence at index 12 and the
expected cleaned output. -/
theorem marketing_strip_removes_span_witness :
    findCI mktPhrase.data c6Sample.data = some 12
    ∧ removeDealershipMarketingParagraph c6Sample
        = String.mk (pyStripList (collapseWs
            (c6Sample.data.take 12 ++ c6Sample.data.drop (spanEndOf c6Sample.data 12))))
    ∧ spanEndSpec c6Sample.data 12 (spanEndOf c6Sample.data 12)
    ∧ removeDealershipMarketingParagraph c6Sample
        = "Some intro. More description afterwards." :=
  ⟨by rfl,
   (marketing_strip_removes_span c6Sample 12 (by rfl)).2.1,
   (marketing_strip_removes_span c6Sample 12 (by rfl)).2.2,
   by rfl⟩

/-- C8. Registry lookup scans the table in registration order and
returns the chain set of the first pattern whose lowercased text occurs
in the normalized URL (so an earlier matching pattern wins even when a
later one also matches); determine_vdp_search_path succeeds exactly
when the scan of its fixed table over the lowercased netloc-plus-path
succeeds, and on no match it fails with the ScraperError naming the URL
and the full checked pattern list. -/
theorem registry_lookup_policy :
    (∀ (t1 t2 : List (String × List (List TagDict))) (p : String)
        (sp : List (List TagDict)) (norm : String),
      (∀ q ∈ t1, pyInStr (pyLower q.1) norm = false) →
      pyInStr (pyLower p) norm = true →
      lookupSearchPath (t1 ++ (p, sp) :: t2) norm = some sp)
    ∧ (∀ (vdp_url netloc path : String) (sp : List (List TagDict)),
      determine_vdp_search_path vdp_url netloc path = .ok sp
        ↔ lookupSearchPath search_paths_by_domain (pyLower (netloc ++ path)) = some sp)
    ∧ (∀ (vdp_url netloc path : String),
      lookupSearchPath search_paths_by_domain (pyLower (netloc ++ path)) = none →
      determine_vdp_search_path vdp_url netloc path
        = .error (.scraperError
            ("No matching search path pattern found for URL: " ++ vdp_url
              ++ "\nChecked patterns: " ++ patternsRepr search_paths_by_domain)
            vdp_url))
    ∧ patternsRepr search_paths_by_domain
        = "['greghublerford.com', 'sftoyota.com', 'bergeronchryslerjeep.com']" := by
  refine ⟨?_, ?_, ?_, by rfl⟩
  · intro t1 t2 p sp norm hmiss hp
    induction t1 with
    | nil => simp [lookupSearchPath, hp]
    | cons q qs ih =>
      rw [List.cons_append, lookupSearchPath]
      rw [hmiss q (List.mem_cons_self q qs)]
      simp only [Bool.false_eq_true, if_false]
      exact ih (fun r hr => hmiss r (List.mem_cons_of_mem q hr))
  · intro vdp_url netloc path sp
    rw [determine_vdp_search_path]
    cases hl : lookupSearchPath search_paths_by_domain (pyLower (netloc ++ path)) with
    | some sp' => simp [hl]
    | none => simp [hl]
  · intro vdp_url netloc path hl
    rw [determine_vdp_search_path]
    rw [hl]

/-- C8 witness: a normalized URL in which both the first and the second
registered patterns occur; the first-registered one wins, and the
lookup is reached through the lowercasing of a mixed-case netloc and
path. -/
theorem registry_lookup_policy_witness :
    pyInStr (pyLower "greghublerford.com") "greghublerford.com/x/sftoyota.com" = true
    ∧ pyInStr (pyLower "sftoyota.com") "greghublerford.com/x/sftoyota.com" = true
    ∧ lookupSearchPath search_paths_by_domain "greghublerford.com/x/sftoyota.com"
        = some [[⟨"div", [("id", "vehicle-description")]⟩,
                 ⟨"div", [("class_", "description")]⟩]]
    ∧ determine_vdp_search_path "https://GregHublerFord.com/X/sftoyota.com"
        "GregHublerFord.com" "/X/sftoyota.com"
        = .ok [[⟨"div", [("id", "vehicle-description")]⟩,
                ⟨"div", [("class_", "description")]⟩]] :=
  ⟨by rfl, by rfl,
   registry_lookup_policy.1 []
     [("sftoyota.com",
        [[⟨"div", [("class", "dealer-comments dealer-comments--square")]⟩,
          ⟨"div", [("id", "dealer-comments"), ("class", "dealer-comments__text")]⟩]]),
      ("bergeronchryslerjeep.com",
        [[⟨"div", [("id", "dealernotes1-app-root")]⟩,
          ⟨"div", [("class", "content")]⟩]])]
     "greghublerford.com"
     [[⟨"div", [("id", "vehicle-description")]⟩,
       ⟨"div", [("class_", "description")]⟩]]
     "greghublerford.com/x/sftoyota.com"
     (by intro q hq; simp at hq)
     (by rfl),
   by rfl⟩

/-- C3 counterexample: in the Tag-Path Resolver, a class value holding
the tokens a and c does not match an element carrying the classes a and
b, although the token a is present among the element classes — the
resolver does not split the class value into tokens. -/
theorem class_any_token_counterexample :
    anyClassTokenPresent "a c" ["a", "b"] = true
    ∧ matchesTag (.elem "div" [("class", .toks ["a", "b"])] [.text "x"]) c3Step = false
    ∧ findFirst c3Doc c3Step = none :=
  ⟨by rfl, by rfl, by rfl⟩

/-- C3 amended. In discovery stage B the class value is split into its
space- or comma-separated tokens and any token present among the
element class tokens suffices to match; in the Tag-Path Resolver the
class value is kept whole and matches only when it equals one of the
element class tokens or the space-joined element class string exactly;
in both, any other (single-valued) attribute requires exact string
equality. -/
theorem class_match_semantics :
    (∀ (stored : List String) (v : String),
      anyClassTokenPresent v stored = true →
      bsMatchVal (some (.toks stored)) (.l (splitClasses v)) = true)
    ∧ (∀ (s : String), s ≠ "" →
      buildSearchAttrs [("class", .pstr s)] = [("class", SpecVal.l (splitClasses s))])
    ∧ (∀ (stored : List String) (v : String),
      bsMatchStr (some (.toks stored)) v = (stored.contains v || pyJoin " " stored == v))
    ∧ (∀ (s v : String), bsMatchStr (some (.one s)) v = (s == v))
    ∧ (∀ (tag : String) (stored : List String) (cs : List Node) (v : String),
      matchesTag (.elem tag [("class", .toks stored)] cs) ⟨tag, [("class_", v)]⟩
        = (stored.contains v || pyJoin " " stored == v)) := by
  refine ⟨?_, ?_, fun stored v => rfl, fun s v => rfl, ?_⟩
  · intro stored v hv
    rw [anyClassTokenPresent, List.any_eq_true] at hv
    obtain ⟨tok, htok, hcon⟩ := hv
    rw [bsMatchVal, List.any_eq_true]
    exact ⟨tok, htok, by rw [bsMatchStr, hcon, Bool.true_or]⟩
  · intro s hs
    simp [buildSearchAttrs, specValOfPy, pyTruthy, hs]
  · intro tag stored cs v
    simp [matchesTag, matchesSpec, tagDictSpec, normKey, alistGet, bsMatchVal, bsMatchStr]

/-- C3 witness: a multi-token class value with one token present among
the element classes matches under the stage-B rule. -/
theorem class_match_semantics_witness :
    anyClassTokenPresent "dealer-comments other" ["dealer-comments", "x"] = true
    ∧ bsMatchVal (some (.toks ["dealer-comments", "x"]))
        (.l (splitClasses "dealer-comments other")) = true :=
  ⟨by rfl,
   class_match_semantics.1 ["dealer-comments", "x"] "dealer-comments other" (by rfl)⟩

/-- C9. On a document whose headings extract (the hypothesis excludes
the documents on which the source raises before stage A), when stage
A's response does not designate a heading, determine_vpd_search_paths
returns, as a normal value, the no-section message with only the
stage-A token cost, independently of the stage-B oracle (stage B is
never consulted). When a heading is designated but its parent div is
not found, the function returns the could-not-find message with only
the stage-A cost, again independently of stage B. When the parent div
is found, the returned token count is the sum of both stage costs. On
a document whose heading extraction raises, the raise propagates. -/
theorem dynamic_discovery_token_flow :
    (∀ (doc : Node) (stageA : List String → PyVal × Nat)
        (stageB stageB' : String → PyVal × Nat) (hs : List String),
      extractHeadings doc = some hs →
      designatesHeading (stageA hs).1 = false →
      determine_vpd_search_paths doc stageA stageB
          = determine_vpd_search_paths doc stageA stageB'
      ∧ determine_vpd_search_paths doc stageA stageB
          = some (.pstr "No dealer comments section found on webpage",
              (stageA hs).2))
    ∧ (∀ (doc : Node) (stageA : List String → PyVal × Nat)
        (stageB stageB' : String → PyVal × Nat) (hs : List String)
        (kvs : List (String × PyVal)),
      extractHeadings doc = some hs →
      (stageA hs).1 = .pdict kvs →
      designatesHeading (.pdict kvs) = true →
      valuesAreStrings kvs = true →
      getParentDivFromTagDict doc kvs = none →
      determine_vpd_search_paths doc stageA stageB
          = determine_vpd_search_paths doc stageA stageB'
      ∧ determine_vpd_search_paths doc stageA stageB
          = some (.pstr "Couldn't find match for heading serach result in original HTML",
              (stageA hs).2))
    ∧ (∀ (doc : Node) (stageA : List String → PyVal × Nat)
        (stageB : String → PyVal × Nat) (hs : List String)
        (kvs : List (String × PyVal)) (s : String),
      extractHeadings doc = some hs →
      (stageA hs).1 = .pdict kvs →
      designatesHeading (.pdict kvs) = true →
      valuesAreStrings kvs = true →
      getParentDivFromTagDict doc kvs = some s →
      determine_vpd_search_paths doc stageA stageB
          = some ((stageB s).1, (stageA hs).2 + (stageB s).2))
    ∧ (∀ (doc : Node) (stageA : List String → PyVal × Nat)
        (stageB : String → PyVal × Nat),
      extractHeadings doc = none →
      determine_vpd_search_paths doc stageA stageB = none) := by
  refine ⟨?_, ?_, ?_, ?_⟩
  · intro doc stageA stageB stageB' hs hx h
    constructor
    · simp [determine_vpd_search_paths, hx, h]
    · simp [determine_vpd_search_paths, hx, h]
  · intro doc stageA stageB stageB' hs kvs hx h1 h2 _h3 h4
    constructor
    · simp [determine_vpd_search_paths, hx, h1, h2, h4]
    · simp [determine_vpd_search_paths, hx, h1, h2, h4]
  · intro doc stageA stageB hs kvs s hx h1 h2 _h3 h4
    simp [determine_vpd_search_paths, hx, h1, h2, h4]
  · intro doc stageA stageB hx
    simp [determine_vpd_search_paths, hx]

/-- C9 witness: on a document with an html element and one heading, a
stage-A response that is not a dict yields the no-section outcome with
the stage-A cost of seven tokens, for two different stage-B oracles. -/
theorem dynamic_discovery_token_flow_witness :
    extractHeadings (.elem "[document]" [] [.elem "html" [] [.elem "h2" [] [.text "About"]]])
        = some ["<h2>About</h2>"]
    ∧ designatesHeading
        ((fun _ : List String => ((PyVal.pstr "no json"), 7)) ["<h2>About</h2>"]).1 = false
    ∧ determine_vpd_search_paths (.elem "[document]" [] [.elem "html" [] [.elem "h2" [] [.text "About"]]])
        (fun _ => ((PyVal.pstr "no json"), 7)) (fun _ => (PyVal.pnone, 5))
        = determine_vpd_search_paths (.elem "[document]" [] [.elem "html" [] [.elem "h2" [] [.text "About"]]])
            (fun _ => ((PyVal.pstr "no json"), 7)) (fun _ => (PyVal.pint 3, 9))
    ∧ determine_vpd_search_paths (.elem "[document]" [] [.elem "html" [] [.elem "h2" [] [.text "About"]]])
        (fun _ => ((PyVal.pstr "no json"), 7)) (fun _ => (PyVal.pnone, 5))
        = some (.pstr "No dealer comments section found on webpage", 7) :=
  ⟨by rfl, by rfl,
   (dynamic_discovery_token_flow.1 (.elem "[document]" [] [.elem "html" [] [.elem "h2" [] [.text "About"]]])
      (fun _ => ((PyVal.pstr "no json"), 7)) (fun _ => (PyVal.pnone, 5))
      (fun _ => (PyVal.pint 3, 9)) ["<h2>About</h2>"] (by rfl) (by rfl)).1,
   (dynamic_discovery_token_flow.1 (.elem "[document]" [] [.elem "html" [] [.elem "h2" [] [.text "About"]]])
      (fun _ => ((PyVal.pstr "no json"), 7)) (fun _ => (PyVal.pnone, 5))
      (fun _ => (PyVal.pint 3, 9)) ["<h2>About</h2>"] (by rfl) (by rfl)).2⟩

/-- C2 counterexample: for a URL matching no registered pattern, the
end-to-end flow terminates with the registry's no-match ScraperError;
dynamic path discovery is not invoked (scrape_description has no
path to it). -/
theorem scrape_description_no_fallback_counterexample :
    scrape_description "https://fakewebsite.com/inventory/vehicle000" "fakewebsite.com"
        "/inventory/vehicle000" (.response 200 "") (fun _ => .text "")
        (fun _ => (PyVal.pnone, 0))
      = .error (.scraperError
          "No matching search path pattern found for URL: https://fakewebsite.com/inventory/vehicle000\nChecked patterns: ['greghublerford.com', 'sftoyota.com', 'bergeronchryslerjeep.com']"
          "https://fakewebsite.com/inventory/vehicle000") := by
  rfl

/-- C2 amended. Whenever the registry lookup fails, scrape_description
propagates that ScraperError unchanged: the description-retrieval flow
terminates with the registry's no-match error and never reaches
fetching or isolation (dynamic path discovery is a separate entry
point, not invoked from this flow). -/
theorem scrape_description_registry_error (vdp_url netloc path : String)
    (httpResult : HttpResult) (parse : String → Node)
    (isolateLLM : String → PyVal × Nat) (e : ScrapeError)
    (h : determine_vdp_search_path vdp_url netloc path = .error e) :
    scrape_description vdp_url netloc path httpResult parse isolateLLM = .error e := by
  simp only [scrape_description, h]
  rfl

/-- C2 witness: a concrete unregistered URL propagates the registry
error through scrape_description. -/
theorem scrape_description_registry_error_witness :
    determine_vdp_search_path "https://example.org/v" "example.org" "/v"
        = .error (.scraperError
            "No matching search path pattern found for URL: https://example.org/v\nChecked patterns: ['greghublerford.com', 'sftoyota.com', 'bergeronchryslerjeep.com']"
            "https://example.org/v")
    ∧ scrape_description "https://example.org/v" "example.org" "/v" (.response 200 "")
        (fun _ => .text "") (fun _ => (PyVal.pnone, 0))
        = .error (.scraperError
            "No matching search path pattern found for URL: https://example.org/v\nChecked patterns: ['greghublerford.com', 'sftoyota.com', 'bergeronchryslerjeep.com']"
            "https://example.org/v") :=
  ⟨by rfl,
   scrape_description_registry_error "https://example.org/v" "example.org" "/v"
     (.response 200 "") (fun _ => .text "") (fun _ => (PyVal.pnone, 0)) _ (by rfl)⟩

end AutoDesc
